import Mathlib

/-!
Shallow embedding of the HRM-API authentication module
(`AuthService` in the NestJS source, plus the passport `JwtStrategy`),
together with proofs of the specified properties of its
registration / login / refresh-rotation / password-change protocol.

The persistent store (Prisma over the `User` and `UserTokens` tables of
`prisma/migrations/20251015095653_init/migration.sql`) is modelled as an
explicit in-memory state threaded through each operation.  Times are
naturals (milliseconds since epoch); the DB-managed audit columns
`createdAt` / `updatedAt` are omitted because no verified property
mentions them.
-/

namespace HRM

/-- Error classes thrown by the service: `ConflictException`,
`BadRequestException`, `UnauthorizedException` from `@nestjs/common`,
each carrying its human-readable message.  `internalFault` stands for an
uncaught runtime crash (it is only ever produced on a dangling
foreign-key dereference, which the schema's `UserTokens_userId_fkey`
constraint makes unreachable). -/
inductive AuthError where
  | conflict (msg : String)
  | badRequest (msg : String)
  | unauthorized (msg : String)
  | internalFault
  deriving DecidableEq, Repr

/-- Modelled from the spec: the Token Codec (§4.2) is the external
`@nestjs/jwt` / `jsonwebtoken` collaborator, not code under `src/`.
A signed compact token embeds the identity claims `{sub, username,
email}`, an issued-at time and an expiry time, integrity-protected by a
symmetric secret; the HMAC-class signature is a deterministic function
of the embedded fields and the secret, so the token value is modelled
as exactly those fields (the `secret` field stands for the keyed
signature). -/
structure Jwt where
  sub : Nat
  username : String
  email : String
  iat : Nat
  exp : Nat
  secret : String
  deriving DecidableEq, Repr

/-- Modelled from the spec: `sign(claims, secret, ttl)` of the Token
Codec (§4.2) — mint a token for the given subject at time `now` with
lifetime `ttl` (milliseconds). -/
def signToken (sub : Nat) (username email : String) (secret : String)
    (now ttl : Nat) : Jwt :=
  { sub := sub, username := username, email := email,
    iat := now, exp := now + ttl, secret := secret }

/-- Modelled from the spec: `verify(token, secret)` of the Token Codec
(§4.2) — accept iff the signature matches the given secret and the
embedded expiry has not elapsed at time `now`. -/
def verifyToken (t : Jwt) (secret : String) (now : Nat) : Bool :=
  t.secret == secret && decide (now < t.exp)

/-- The decoded payload handed to `JwtStrategy.validate` after the
transport-level verification succeeded (`jwt.strategy.ts`, interface
`JwtPayload`). -/
structure JwtPayload where
  sub : Nat
  username : String
  email : String
  iat : Option Nat
  exp : Option Nat
  deriving DecidableEq, Repr

/-- The payload carried by a verified token. -/
def Jwt.payload (t : Jwt) : JwtPayload :=
  { sub := t.sub, username := t.username, email := t.email,
    iat := some t.iat, exp := some t.exp }

/-- Modelled from the spec: the Password Hasher (§4.1) is the external
`argon2` collaborator, not code under `src/`: a one-way digest whose
`verify` accepts exactly the plaintext the stored hash was produced
from.  (Salting is irrelevant to every verified property and is
omitted.) -/
def argon2hash (plaintext : String) : String :=
  "argon2id$" ++ plaintext

/-- Modelled from the spec: `verify(hash, plaintext)` of the Password
Hasher (§4.1). -/
def argon2verify (hash plaintext : String) : Bool :=
  hash == argon2hash plaintext

/-- A row of the `User` table (`migration.sql`): `id SERIAL PRIMARY KEY`,
unique `email`, unique `username`, `password` (argon2 hash),
`isLocked BOOLEAN DEFAULT false`. -/
structure User where
  id : Nat
  email : String
  username : String
  password : String
  isLocked : Bool
  deriving DecidableEq, Repr

/-- A row of the `UserTokens` table (`migration.sql`): `id SERIAL
PRIMARY KEY`, `userId` (FK to `User`, cascade delete), unique
`refreshToken`, `userAgent`, `ipAddress`, `deviceInfo`,
`lastUsedAt`, `expiresAt`. -/
structure UserToken where
  id : Nat
  userId : Nat
  refreshToken : Jwt
  userAgent : String
  ipAddress : String
  deviceInfo : String
  lastUsedAt : Nat
  expiresAt : Nat
  deriving DecidableEq, Repr

/-- The relational store: the two tables plus the next value of each
`SERIAL` id sequence. -/
structure Db where
  users : List User
  userTokens : List UserToken
  nextUserId : Nat
  nextTokenId : Nat
  deriving DecidableEq, Repr

/-- The configuration consumed through `ConfigService`: the two JWT
secrets and the two TTLs (TTLs in milliseconds; the source supplies
them as duration strings parsed by the jwt library).  `none` models an
unset environment variable, for which the source substitutes its
documented fallback at each use site. -/
structure Config where
  jwtSecret : Option String
  jwtRefreshSecret : Option String
  jwtExpiresIn : Option Nat
  jwtRefreshExpiresIn : Option Nat
  deriving DecidableEq, Repr

/-- Fallback access-token TTL, the source's literal `15m`. -/
def fifteenMinutesMs : Nat := 15 * 60 * 1000

/-- Fallback refresh TTL and the hardcoded session lifetime, the
source's literal `7 * 24 * 60 * 60 * 1000`. -/
def sevenDaysMs : Nat := 7 * 24 * 60 * 60 * 1000

/-- The public projection of a user returned by `register` and `login`
(never the password hash). -/
structure PublicUser where
  id : Nat
  email : String
  username : String
  deriving DecidableEq, Repr

/-- `RegisterDto` (`dto/register.dto.ts`). -/
structure RegisterDto where
  email : String
  username : String
  password : String
  deriving DecidableEq, Repr

/-- `LoginDto`. -/
structure LoginDto where
  email : String
  password : String
  deriving DecidableEq, Repr

/-- The `data` object returned by a successful `login`. -/
structure LoginData where
  user : PublicUser
  accessToken : Jwt
  refreshToken : Jwt
  deriving DecidableEq, Repr

namespace AuthService

/-- `generateTokens(userId, username, email)` (auth.service.ts): sign an
access token and a refresh token over the payload
`{sub, username, email}` with independent secrets and TTLs, each
configuration value defaulted exactly as in the source. -/
def generateTokens (cfg : Config) (userId : Nat) (username email : String)
    (now : Nat) : Jwt × Jwt :=
  let jwtSecret := cfg.jwtSecret.getD "your-secret-jwt-key"
  let jwtRefreshSecret := cfg.jwtRefreshSecret.getD "your-refresh-secret"
  let jwtExpiresIn := cfg.jwtExpiresIn.getD fifteenMinutesMs
  let jwtRefreshExpiresIn := cfg.jwtRefreshExpiresIn.getD sevenDaysMs
  (signToken userId username email jwtSecret now jwtExpiresIn,
   signToken userId username email jwtRefreshSecret now jwtRefreshExpiresIn)

/-- `saveRefreshToken(userId, refreshToken, userAgent, ipAddress)`
(auth.service.ts): insert a `UserTokens` row whose `deviceInfo`
defaults to the user agent and whose `expiresAt` is the hardcoded
`Date.now() + 7 * 24 * 60 * 60 * 1000`. -/
def saveRefreshToken (db : Db) (userId : Nat) (refreshToken : Jwt)
    (userAgent ipAddress : String) (now : Nat) : Db :=
  let expiresAt := now + sevenDaysMs
  { db with
      userTokens := (db.userTokens ++
        [{ id := db.nextTokenId, userId := userId,
           refreshToken := refreshToken, userAgent := userAgent,
           ipAddress := ipAddress, deviceInfo := userAgent,
           lastUsedAt := now, expiresAt := expiresAt }]),
      nextTokenId := db.nextTokenId + 1 }

/-- Modelled from the spec and `migration.sql`: `prisma.user.create`
enforces the store's unique indexes `User_email_key` and
`User_username_key`; a violation of either surfaces as a thrown storage
error (Prisma `P2002`), modelled as `none`. -/
def userCreate (db : Db) (email username password : String) :
    Option (Db × User) :=
  if db.users.any (fun u => u.email == email) then none
  else if db.users.any (fun u => u.username == username) then none
  else
    let user : User :=
      { id := db.nextUserId, email := email, username := username,
        password := password, isLocked := false }
    some
      ({ db with
           users := (db.users ++ [user]),
           nextUserId := db.nextUserId + 1 }, user)

/-- `register(registerDto)` (auth.service.ts lines 21-71): reject a
duplicate email with `ConflictException`, hash the password, create the
user; the catch-all re-raises the `ConflictException` and downgrades
every other storage failure to `BadRequestException("Failed to register
user")`.  The returned store is unchanged on every error path. -/
def register (db : Db) (dto : RegisterDto) :
    Db × Except AuthError PublicUser :=
  match db.users.find? (fun u => u.email == dto.email) with
  | some _ => (db, .error (.conflict "Email already exists"))
  | none =>
    let hashedPassword := argon2hash dto.password
    match userCreate db dto.email dto.username hashedPassword with
    | some (db2, user) =>
        (db2, .ok { id := user.id, email := user.email,
                    username := user.username })
    | none => (db, .error (.badRequest "Failed to register user"))

/-- `login(loginDto, userAgent, ipAddress)` (auth.service.ts lines
73-126): unknown email and wrong password fail with the same
`UnauthorizedException("Invalid email or password")`; a locked account
fails with `"Account is locked"` before the password is verified; on
success both tokens are minted and a new session row is persisted. -/
def login (cfg : Config) (db : Db) (dto : LoginDto)
    (userAgent ipAddress : String) (now : Nat) :
    Db × Except AuthError LoginData :=
  match db.users.find? (fun u => u.email == dto.email) with
  | none => (db, .error (.unauthorized "Invalid email or password"))
  | some user =>
    if user.isLocked then
      (db, .error (.unauthorized "Account is locked"))
    else if !(argon2verify user.password dto.password) then
      (db, .error (.unauthorized "Invalid email or password"))
    else
      let tokens := generateTokens cfg user.id user.username user.email now
      let db2 := saveRefreshToken db user.id tokens.2 userAgent ipAddress now
      (db2, .ok { user := { id := user.id, email := user.email,
                            username := user.username },
                  accessToken := tokens.1, refreshToken := tokens.2 })

/-- `refreshTokens(refreshToken)` (auth.service.ts lines 143-196), the
rotation state machine: (1) look up the session row by token value,
absent is terminal `"Invalid refresh token"`; (2) `now > expiresAt`
deletes the row (lazy expiry) and fails `"Refresh token expired"`;
(3) failed verification against the refresh secret is terminal
`"Invalid refresh token"`; otherwise mint a fresh pair and update the
same row in place (`where: { id: tokenRecord.id }`) with the new token
value, `lastUsedAt = now` and the hardcoded `expiresAt = now + 7d`.
The `internalFault` branch is a dangling `tokenRecord.user`, impossible
under the schema's foreign-key constraint. -/
def refreshTokens (cfg : Config) (db : Db) (refreshToken : Jwt)
    (now : Nat) : Db × Except AuthError (Jwt × Jwt) :=
  match db.userTokens.find? (fun r => r.refreshToken == refreshToken) with
  | none => (db, .error (.unauthorized "Invalid refresh token"))
  | some tokenRecord =>
    if now > tokenRecord.expiresAt then
      ({ db with userTokens :=
           db.userTokens.filter (fun r => !(r.refreshToken == refreshToken)) },
       .error (.unauthorized "Refresh token expired"))
    else if !(verifyToken refreshToken
        (cfg.jwtRefreshSecret.getD "your-refresh-secret") now) then
      (db, .error (.unauthorized "Invalid refresh token"))
    else
      match db.users.find? (fun u => u.id == tokenRecord.userId) with
      | none => (db, .error .internalFault)
      | some user =>
        let tokens := generateTokens cfg user.id user.username user.email now
        ({ db with userTokens := db.userTokens.map (fun r =>
             if r.id == tokenRecord.id then
               { r with refreshToken := tokens.2, lastUsedAt := now,
                        expiresAt := now + sevenDaysMs }
             else r) },
         .ok tokens)

/-- `changePassword(userId, currentPassword, newPassword,
confirmPassword)` (auth.service.ts lines 198-253): the two plaintext
checks come first, then the user is loaded and the current password
verified; on success the hash is replaced and ALL `UserTokens` rows of
the user are deleted. -/
def changePassword (db : Db) (userId : Nat)
    (currentPassword newPassword confirmPassword : String) :
    Db × Except AuthError Unit :=
  if newPassword != confirmPassword then
    (db, .error (.conflict "New passwords do not match"))
  else if currentPassword == newPassword then
    (db, .error
      (.conflict "New password must be different from current password"))
  else
    match db.users.find? (fun u => u.id == userId) with
    | none => (db, .error (.unauthorized "User not found"))
    | some user =>
      if !(argon2verify user.password currentPassword) then
        (db, .error (.unauthorized "Current password is incorrect"))
      else
        let hashedNewPassword := argon2hash newPassword
        ({ db with
             users := db.users.map (fun u =>
               if u.id == userId then { u with password := hashedNewPassword }
               else u),
             userTokens := db.userTokens.filter (fun r => !(r.userId == userId)) },
         .ok ())

end AuthService

/-- The minimal identity projection attached to the request by the
Identity Gate (`current-user.decorator.ts`, interface
`CurrentUserData`): exactly `{id, username, email}`, structurally
incapable of carrying the password hash. -/
structure CurrentUserData where
  id : Nat
  username : String
  email : String
  deriving DecidableEq, Repr

namespace JwtStrategy

/-- `JwtStrategy.validate(payload)` (`jwt.strategy.ts` lines 36-62),
run after the transport layer verified the access token: re-look-up the
subject by id, reject an absent user (`"User not found"`) or a locked
one (`"Account is locked"`), and expose only `{id, username, email}`
downstream. -/
def validate (db : Db) (payload : JwtPayload) :
    Except AuthError CurrentUserData :=
  match db.users.find? (fun u => u.id == payload.sub) with
  | none => .error (.unauthorized "User not found")
  | some user =>
    if user.isLocked then
      .error (.unauthorized "Account is locked")
    else
      .ok { id := user.id, username := user.username, email := user.email }

end JwtStrategy

/-! ## Generic helpers -/

instance exceptDecEq {ε α : Type} [DecidableEq ε] [DecidableEq α] :
    DecidableEq (Except ε α) := fun x y =>
  match x, y with
  | .ok a, .ok b =>
      if h : a = b then isTrue (by rw [h])
      else isFalse (by intro hc; cases hc; exact h rfl)
  | .ok _, .error _ => isFalse (by intro hc; cases hc)
  | .error _, .ok _ => isFalse (by intro hc; cases hc)
  | .error e, .error f =>
      if h : e = f then isTrue (by rw [h])
      else isFalse (by intro hc; cases hc; exact h rfl)

/-- If `q` is an element of `l` satisfying `p` and every element of `l`
satisfying `p` equals `q`, then the linear scan `find?` returns `q`. -/
theorem find?_eq_some_of_unique {α : Type} {p : α → Bool} {l : List α}
    {q : α} (hq : q ∈ l) (hpq : p q = true)
    (huniq : ∀ y ∈ l, p y = true → y = q) :
    l.find? p = some q := by
  induction l with
  | nil => cases hq
  | cons a l ih =>
    by_cases ha : p a = true
    · have haq : a = q := huniq a (List.mem_cons_self a l) ha
      subst haq
      exact List.find?_cons_of_pos l ha
    · rw [List.find?_cons_of_neg l ha]
      rcases List.mem_cons.mp hq with h | h
      · subst h; exact absurd hpq ha
      · exact ih h (fun y hy hpy => huniq y (List.mem_cons_of_mem a hy) hpy)

/-! ## Inversion and evaluation lemmas for the rotation step -/

/-- The in-place update applied to the session table by a successful
rotation: the row with the found record's id receives the new token
value, `lastUsedAt = now` and `expiresAt = now + 7d`; all other rows
are untouched. -/
def rotateUpd (recId : Nat) (newTok : Jwt) (now : Nat)
    (r : UserToken) : UserToken :=
  if r.id == recId then
    { r with refreshToken := newTok, lastUsedAt := now,
             expiresAt := now + sevenDaysMs }
  else r

/-- The session table after the rotation step rewrote the found row. -/
def rotatedDb (db : Db) (recId : Nat) (newTok : Jwt) (now : Nat) : Db :=
  { db with userTokens := db.userTokens.map (rotateUpd recId newTok now) }

/-- A successful `refreshTokens` call decomposes into: a session row
found by token value, an expiry check passed, a signature check passed,
the owning user found, the returned pair freshly minted for that user,
and the store rewritten by the single-row in-place update. -/
theorem refreshTokens_ok_inv {cfg : Config} {db db2 : Db} {t : Jwt}
    {now : Nat} {pr : Jwt × Jwt}
    (h : AuthService.refreshTokens cfg db t now = (db2, .ok pr)) :
    ∃ r u,
      db.userTokens.find? (fun x => x.refreshToken == t) = some r ∧
      ¬ now > r.expiresAt ∧
      verifyToken t (cfg.jwtRefreshSecret.getD "your-refresh-secret") now
        = true ∧
      db.users.find? (fun x => x.id == r.userId) = some u ∧
      pr = AuthService.generateTokens cfg u.id u.username u.email now ∧
      db2 = rotatedDb db r.id pr.2 now := by
  unfold AuthService.refreshTokens at h
  split at h
  · simp at h
  · next r hfind =>
    split at h
    · simp at h
    · next hexp =>
      rcases hver : verifyToken t
          (cfg.jwtRefreshSecret.getD "your-refresh-secret") now with _ | _
      · rw [hver] at h; simp at h
      · rw [hver] at h
        simp only [Bool.not_true, Bool.false_eq_true, if_false] at h
        split at h
        · simp at h
        · next u huser =>
          simp only [Prod.mk.injEq, Except.ok.injEq] at h
          refine ⟨r, u, hfind, hexp, rfl, huser, h.2.symm, ?_⟩
          rw [← h.1, rotatedDb]
          simp only [h.2]
          rfl

/-- Evaluation of a successful rotation from its four enabling facts. -/
theorem refreshTokens_ok_eq {cfg : Config} {db : Db} {t : Jwt}
    {now : Nat} {r : UserToken} {u : User}
    (hfind : db.userTokens.find? (fun x => x.refreshToken == t) = some r)
    (hexp : ¬ now > r.expiresAt)
    (hver : verifyToken t (cfg.jwtRefreshSecret.getD "your-refresh-secret")
      now = true)
    (huser : db.users.find? (fun x => x.id == r.userId) = some u) :
    AuthService.refreshTokens cfg db t now =
      (rotatedDb db r.id
         (AuthService.generateTokens cfg u.id u.username u.email now).2 now,
       .ok (AuthService.generateTokens cfg u.id u.username u.email now)) := by
  unfold AuthService.refreshTokens
  rw [hfind]
  simp only [if_neg hexp, hver, Bool.not_true, Bool.false_eq_true, if_false]
  rw [huser, rotatedDb]
  rfl

/-! ## Concrete example values, used to instantiate the verified
properties at explicit inputs -/

/-- A configuration with every environment variable unset (all
fallbacks in force). -/
def exCfg : Config := ⟨none, none, none, none⟩

/-- A registered, unlocked user. -/
def exUser : User := ⟨1, "a@x.com", "alice", argon2hash "Abc123", false⟩

/-- The store right after `exUser` registered: no sessions yet. -/
def exDb : Db := ⟨[exUser], [], 2, 1⟩

/-- The refresh token minted for `exUser` by a login at time `0`. -/
def exTok : Jwt := signToken 1 "alice" "a@x.com" "your-refresh-secret" 0
  sevenDaysMs

/-- The session row persisted by that login. -/
def exRow : UserToken := ⟨1, 1, exTok, "ua", "ip", "ua", 0, sevenDaysMs⟩

/-- The store after `exUser` logged in at time `0`. -/
def exDb1 : Db := ⟨[exUser], [exRow], 2, 2⟩

/-- `exDb1` is reachable: it is exactly what `login` at time `0`
produces from `exDb`. -/
theorem exDb1_reachable :
    AuthService.login exCfg exDb ⟨"a@x.com", "Abc123"⟩ "ua" "ip" 0 =
      (exDb1, .ok ⟨⟨1, "a@x.com", "alice"⟩,
        signToken 1 "alice" "a@x.com" "your-secret-jwt-key" 0
          fifteenMinutesMs, exTok⟩) := by
  decide

/-- The token pair minted by a refresh of `exTok` at time `1000`. -/
def exPr : Jwt × Jwt :=
  AuthService.generateTokens exCfg 1 "alice" "a@x.com" 1000

/-- The store after that refresh rotated the session row in place. -/
def exDb2 : Db :=
  ⟨[exUser], [⟨1, 1, exPr.2, "ua", "ip", "ua", 1000, 1000 + sevenDaysMs⟩],
   2, 2⟩

/-! ## The claims -/

/-- C1: every refresh call that succeeds updates the found session row
in place — new token string, `lastUsedAt = now`, `expiresAt = now +
refresh TTL` — leaves every other row and the user table untouched, and
creates no second row: the session count is unchanged. -/
theorem c1_refresh_rotates_in_place (cfg : Config) (db db2 : Db) (t : Jwt)
    (now : Nat) (pr : Jwt × Jwt)
    (h : AuthService.refreshTokens cfg db t now = (db2, .ok pr)) :
    db2.userTokens.length = db.userTokens.length ∧
    db2.users = db.users ∧
    ∃ r, db.userTokens.find? (fun x => x.refreshToken == t) = some r ∧
      ({ r with refreshToken := pr.2, lastUsedAt := now,
                expiresAt := now + sevenDaysMs } : UserToken)
        ∈ db2.userTokens ∧
      ∀ x ∈ db.userTokens, ¬ x.id = r.id → x ∈ db2.userTokens := by
  obtain ⟨r, u, hfind, hexp, hver, huser, hpr, hdb2⟩ := refreshTokens_ok_inv h
  subst hdb2
  refine ⟨List.length_map _ _, rfl, r, hfind, ?_, ?_⟩
  · have hr : r ∈ db.userTokens := List.mem_of_find?_eq_some hfind
    have himg : rotateUpd r.id pr.2 now r =
        { r with refreshToken := pr.2, lastUsedAt := now,
                 expiresAt := now + sevenDaysMs } := by
      simp [rotateUpd]
    exact himg ▸ List.mem_map_of_mem _ hr
  · intro x hx hne
    have himg : rotateUpd r.id pr.2 now x = x := by
      simp [rotateUpd, beq_iff_eq, hne]
    exact himg ▸ List.mem_map_of_mem _ hx

/-- Witness for C1: the concrete refresh of `exTok` at time `1000`
succeeds and satisfies every conjunct of `c1_refresh_rotates_in_place`. -/
theorem c1_refresh_rotates_in_place_witness :
    AuthService.refreshTokens exCfg exDb1 exTok 1000 = (exDb2, .ok exPr) ∧
    (exDb2.userTokens.length = exDb1.userTokens.length ∧
     exDb2.users = exDb1.users ∧
     ∃ r, exDb1.userTokens.find? (fun x => x.refreshToken == exTok)
         = some r ∧
       ({ r with refreshToken := exPr.2, lastUsedAt := 1000,
                 expiresAt := 1000 + sevenDaysMs } : UserToken)
         ∈ exDb2.userTokens ∧
       ∀ x ∈ exDb1.userTokens, ¬ x.id = r.id → x ∈ exDb2.userTokens) :=
  ⟨by decide,
   c1_refresh_rotates_in_place exCfg exDb1 exDb2 exTok 1000 exPr (by decide)⟩

/-- The session table after lazy expiry deleted the row holding `t`. -/
def expiredDeletedDb (db : Db) (t : Jwt) : Db :=
  { db with userTokens :=
      db.userTokens.filter (fun x => !(x.refreshToken == t)) }

/-- C3: `refreshTokens` fails exactly in three terminal cases, in this
order: no row holds the token (message `"Invalid refresh token"`, store
unchanged); the row is expired, `now > expiresAt` (the row is deleted —
the only mutation on an error path — message `"Refresh token
expired"`); the row is unexpired but the string fails verification
against the refresh secret (message `"Invalid refresh token"`, store
unchanged).  The completeness direction assumes the schema's foreign
key from sessions to users. -/
theorem c3_refresh_error_cases (cfg : Config) (db : Db) (t : Jwt)
    (now : Nat)
    (hfk : ∀ r ∈ db.userTokens, ∃ u ∈ db.users, u.id = r.userId) :
    (db.userTokens.find? (fun x => x.refreshToken == t) = none →
      AuthService.refreshTokens cfg db t now =
        (db, .error (.unauthorized "Invalid refresh token"))) ∧
    (∀ r, db.userTokens.find? (fun x => x.refreshToken == t) = some r →
      now > r.expiresAt →
      AuthService.refreshTokens cfg db t now =
        (expiredDeletedDb db t,
         .error (.unauthorized "Refresh token expired"))) ∧
    (∀ r, db.userTokens.find? (fun x => x.refreshToken == t) = some r →
      ¬ now > r.expiresAt →
      verifyToken t (cfg.jwtRefreshSecret.getD "your-refresh-secret") now
        = false →
      AuthService.refreshTokens cfg db t now =
        (db, .error (.unauthorized "Invalid refresh token"))) ∧
    (∀ db2 e, AuthService.refreshTokens cfg db t now = (db2, .error e) →
      db.userTokens.find? (fun x => x.refreshToken == t) = none ∨
      ∃ r, db.userTokens.find? (fun x => x.refreshToken == t) = some r ∧
        (now > r.expiresAt ∨
         verifyToken t (cfg.jwtRefreshSecret.getD "your-refresh-secret")
           now = false)) := by
  refine ⟨?_, ?_, ?_, ?_⟩
  · intro hfind
    unfold AuthService.refreshTokens
    rw [hfind]
  · intro r hfind hexp
    unfold AuthService.refreshTokens
    rw [hfind]
    simp only [if_pos hexp]
    rfl
  · intro r hfind hexp hver
    unfold AuthService.refreshTokens
    rw [hfind]
    simp only [if_neg hexp, hver, Bool.not_false, if_true]
  · intro db2 e h
    unfold AuthService.refreshTokens at h
    split at h
    · next hfind => exact Or.inl hfind
    · next r hfind =>
      split at h
      · next hexp => exact Or.inr ⟨r, hfind, Or.inl hexp⟩
      · next hexp =>
        rcases hver : verifyToken t
            (cfg.jwtRefreshSecret.getD "your-refresh-secret") now with _ | _
        · exact Or.inr ⟨r, hfind, Or.inr rfl⟩
        · rw [hver] at h
          simp only [Bool.not_true, Bool.false_eq_true, if_false] at h
          split at h
          · next huser =>
            obtain ⟨u, hu, hid⟩ := hfk r (List.mem_of_find?_eq_some hfind)
            have := List.find?_eq_none.mp huser u hu
            simp [beq_iff_eq, hid] at this
          · next u huser => simp at h

/-- Witness for C3: refreshing an unknown token against the concrete
store with no sessions fails with `"Invalid refresh token"` and leaves
the store unchanged. -/
theorem c3_refresh_error_cases_witness :
    (∀ r ∈ exDb.userTokens, ∃ u ∈ exDb.users, u.id = r.userId) ∧
    AuthService.refreshTokens exCfg exDb exTok 5 =
      (exDb, .error (.unauthorized "Invalid refresh token")) :=
  ⟨by decide,
   (c3_refresh_error_cases exCfg exDb exTok 5 (by decide)).1 (by decide)⟩

/-- A refresh whose token value matches no session row fails terminally
with no state change. -/
theorem refreshTokens_none_eq {cfg : Config} {db : Db} {t : Jwt}
    {now : Nat}
    (hfind : db.userTokens.find? (fun x => x.refreshToken == t) = none) :
    AuthService.refreshTokens cfg db t now =
      (db, .error (.unauthorized "Invalid refresh token")) := by
  unfold AuthService.refreshTokens
  rw [hfind]

/-- C2 counterexample: the claim "from any state reachable after a
successful rotation, the rotated-out string never again matches a
session row" is false.  `exDb1` is reachable (`exDb1_reachable`); a
refresh of `exTok` at time `0` — the codec timestamp at which `exTok`
itself was minted — succeeds, and because the HMAC-class signature is a
deterministic function of the claims, issued-at, expiry and secret, the
"new" refresh token it mints is the identical string `exTok`, so the
row is overwritten with the same value and a second refresh with the
original string succeeds instead of failing UNAUTHORIZED. -/
theorem c2_counterexample :
    (AuthService.generateTokens exCfg 1 "alice" "a@x.com" 0).2 = exTok ∧
    (AuthService.refreshTokens exCfg exDb1 exTok 0).2 =
      .ok (AuthService.generateTokens exCfg 1 "alice" "a@x.com" 0) ∧
    (AuthService.refreshTokens exCfg
        (AuthService.refreshTokens exCfg exDb1 exTok 0).1 exTok 0).2 =
      .ok (AuthService.generateTokens exCfg 1 "alice" "a@x.com" 0) := by
  decide

/-- C2 (amended): if a refresh of `t` succeeds AND the newly minted
refresh string differs from `t` (true except when the rotation re-mints
the very same token, cf. the counterexample), then — under the store's
unique-index and primary-key invariants — a subsequent refresh with the
original string `t` fails `UNAUTHORIZED("Invalid refresh token")` with
no state change, while a refresh with the newly returned string
succeeds at any time within the rotated row's and the new token's
validity windows. -/
theorem c2_rotated_token_single_use (cfg : Config) (db db2 : Db)
    (t : Jwt) (now now2 : Nat) (a rt : Jwt) (r : UserToken)
    (hfind : db.userTokens.find? (fun x => x.refreshToken == t) = some r)
    (hrun : AuthService.refreshTokens cfg db t now = (db2, .ok (a, rt)))
    (hne : rt ≠ t)
    (huniq : ∀ x ∈ db.userTokens, x.refreshToken = t → x = r)
    (hids : ∀ x ∈ db.userTokens, x.id = r.id → x = r)
    (hfresh : ∀ x ∈ db.userTokens, ¬ x.refreshToken = rt)
    (hle : ¬ now2 > now + sevenDaysMs)
    (hlt : now2 < now + cfg.jwtRefreshExpiresIn.getD sevenDaysMs) :
    AuthService.refreshTokens cfg db2 t now2 =
      (db2, .error (.unauthorized "Invalid refresh token")) ∧
    ∃ tk, (AuthService.refreshTokens cfg db2 rt now2).2 = .ok tk := by
  obtain ⟨r2, u, hfind2, hexp, hver, huser, hpr, hdb2⟩ :=
    refreshTokens_ok_inv hrun
  rw [hfind] at hfind2
  have hrr : r2 = r := by injection hfind2.symm
  subst hrr
  have hrt : rt = (AuthService.generateTokens cfg u.id u.username u.email
      now).2 := congrArg Prod.snd hpr
  have hmem : r2 ∈ db.userTokens := List.mem_of_find?_eq_some hfind
  have hupd : rotateUpd r2.id rt now r2 =
      { r2 with refreshToken := rt, lastUsedAt := now,
                expiresAt := now + sevenDaysMs } := by
    simp [rotateUpd]
  constructor
  · have hnone : db2.userTokens.find? (fun x => x.refreshToken == t)
        = none := by
      rw [hdb2]
      refine List.find?_eq_none.mpr ?_
      intro y hy
      obtain ⟨x, hx, hxy⟩ := List.mem_map.mp hy
      by_cases hid : x.id = r2.id
      · have hxr : x = r2 := hids x hx hid
        subst hxr
        rw [← hxy, hupd]
        simp [beq_iff_eq, hne]
      · have hxx : rotateUpd r2.id ((a, rt)).2 now x = x := by
          simp [rotateUpd, beq_iff_eq, hid]
        rw [← hxy, hxx]
        simp only [beq_iff_eq]
        intro hc
        exact hid (congrArg UserToken.id (huniq x hx hc))
    rw [refreshTokens_none_eq hnone, hdb2]
  · have hfind3 : db2.userTokens.find? (fun x => x.refreshToken == rt)
        = some (rotateUpd r2.id rt now r2) := by
      rw [hdb2]
      refine find?_eq_some_of_unique (List.mem_map_of_mem _ hmem) ?_ ?_
      · rw [hupd]; simp
      · intro y hy hpy
        obtain ⟨x, hx, hxy⟩ := List.mem_map.mp hy
        by_cases hid : x.id = r2.id
        · have hxr : x = r2 := hids x hx hid
          rw [← hxy, hxr]
        · have hxx : rotateUpd r2.id ((a, rt)).2 now x = x := by
            simp [rotateUpd, beq_iff_eq, hid]
          rw [← hxy, hxx] at hpy
          exact absurd (by simpa [beq_iff_eq] using hpy) (hfresh x hx)
    have hexp3 : ¬ now2 > (rotateUpd r2.id rt now r2).expiresAt := by
      rw [hupd]; exact hle
    have hver3 : verifyToken rt
        (cfg.jwtRefreshSecret.getD "your-refresh-secret") now2 = true := by
      rw [hrt]
      simp [AuthService.generateTokens, signToken, verifyToken, hlt]
    have huser3 : db2.users.find?
        (fun x => x.id == (rotateUpd r2.id rt now r2).userId) = some u := by
      rw [hdb2]
      have hsame : (rotateUpd r2.id rt now r2).userId = r2.userId := by
        rw [hupd]
      rw [rotatedDb]
      simpa [hsame] using huser
    refine ⟨AuthService.generateTokens cfg u.id u.username u.email now2,
      ?_⟩
    rw [refreshTokens_ok_eq hfind3 hexp3 hver3 huser3]

/-- Witness for the amended C2 at concrete inputs: the rotation at time
`1000` mints a string different from `exTok`; afterwards `exTok` is
dead and the new string refreshes successfully at time `2000`. -/
theorem c2_rotated_token_single_use_witness :
    exPr.2 ≠ exTok ∧
    (AuthService.refreshTokens exCfg exDb2 exTok 2000 =
      (exDb2, .error (.unauthorized "Invalid refresh token")) ∧
    ∃ tk, (AuthService.refreshTokens exCfg exDb2 exPr.2 2000).2
      = .ok tk) :=
  ⟨by decide,
   c2_rotated_token_single_use exCfg exDb1 exDb2 exTok 1000 2000
     exPr.1 exPr.2 exRow (by decide) (by decide) (by decide) (by decide)
     (by decide) (by decide) (by decide) (by decide)⟩

/-- C4: login with a nonexistent email and login with an existing email
but wrong password fail with the byte-identical message `"Invalid email
or password"` and no state change; for a locked user login fails with
`"Account is locked"` with no hypothesis on the supplied password — the
lock check precedes password verification. -/
theorem c4_login_error_hyperproperty (cfg : Config) (db : Db)
    (dto : LoginDto) (ua ip : String) (now : Nat) :
    (db.users.find? (fun u => u.email == dto.email) = none →
      AuthService.login cfg db dto ua ip now =
        (db, .error (.unauthorized "Invalid email or password"))) ∧
    (∀ u, db.users.find? (fun x => x.email == dto.email) = some u →
      u.isLocked = false →
      argon2verify u.password dto.password = false →
      AuthService.login cfg db dto ua ip now =
        (db, .error (.unauthorized "Invalid email or password"))) ∧
    (∀ u, db.users.find? (fun x => x.email == dto.email) = some u →
      u.isLocked = true →
      AuthService.login cfg db dto ua ip now =
        (db, .error (.unauthorized "Account is locked"))) := by
  refine ⟨?_, ?_, ?_⟩
  · intro hfind
    unfold AuthService.login
    rw [hfind]
  · intro u hfind hlock hpw
    unfold AuthService.login
    rw [hfind]
    simp [hlock, hpw]
  · intro u hfind hlock
    unfold AuthService.login
    rw [hfind]
    simp [hlock]

/-- Witness for C4: all three concrete failures — unknown email, wrong
password for `exUser`, and a locked copy of `exUser` with the CORRECT
password. -/
theorem c4_login_error_hyperproperty_witness :
    AuthService.login exCfg exDb ⟨"z@x.com", "Abc123"⟩ "ua" "ip" 7 =
      (exDb, .error (.unauthorized "Invalid email or password")) ∧
    AuthService.login exCfg exDb ⟨"a@x.com", "wrong"⟩ "ua" "ip" 7 =
      (exDb, .error (.unauthorized "Invalid email or password")) ∧
    AuthService.login exCfg ⟨[⟨1, "a@x.com", "alice", argon2hash "Abc123",
        true⟩], [], 2, 1⟩ ⟨"a@x.com", "Abc123"⟩ "ua" "ip" 7 =
      (⟨[⟨1, "a@x.com", "alice", argon2hash "Abc123", true⟩], [], 2, 1⟩,
       .error (.unauthorized "Account is locked")) :=
  ⟨(c4_login_error_hyperproperty exCfg exDb ⟨"z@x.com", "Abc123"⟩
      "ua" "ip" 7).1 (by decide),
   (c4_login_error_hyperproperty exCfg exDb ⟨"a@x.com", "wrong"⟩
      "ua" "ip" 7).2.1 exUser (by decide) (by decide) (by decide),
   (c4_login_error_hyperproperty exCfg ⟨[⟨1, "a@x.com", "alice",
      argon2hash "Abc123", true⟩], [], 2, 1⟩ ⟨"a@x.com", "Abc123"⟩
      "ua" "ip" 7).2.2 ⟨1, "a@x.com", "alice", argon2hash "Abc123", true⟩
      (by decide) (by decide)⟩

/-- C5: a successful `changePassword` deletes every session row of the
user, so any refresh token whose session rows all belonged to that user
fails `UNAUTHORIZED("Invalid refresh token")` on every subsequent
refresh call, under any configuration and at any time. -/
theorem c5_change_password_revokes_all_sessions (db db2 : Db)
    (userId : Nat) (cur nw conf : String)
    (h : AuthService.changePassword db userId cur nw conf = (db2, .ok ())) :
    (∀ r ∈ db2.userTokens, ¬ r.userId = userId) ∧
    ∀ cfg t now,
      (∀ r ∈ db.userTokens, r.refreshToken = t → r.userId = userId) →
      AuthService.refreshTokens cfg db2 t now =
        (db2, .error (.unauthorized "Invalid refresh token")) := by
  unfold AuthService.changePassword at h
  split at h
  · simp at h
  · split at h
    · simp at h
    · split at h
      · simp at h
      · next user hfindu =>
        split at h
        · simp at h
        · simp only [Prod.mk.injEq] at h
          have hdb2 : db2 = { db with
              users := db.users.map (fun u =>
                if u.id == userId then { u with password := argon2hash nw }
                else u),
              userTokens := db.userTokens.filter
                (fun r => !(r.userId == userId)) } := h.1.symm
          constructor
          · intro r hr
            rw [hdb2] at hr
            have := (List.mem_filter.mp hr).2
            simpa [beq_iff_eq] using this
          · intro cfg t now howner
            have hnone : db2.userTokens.find?
                (fun x => x.refreshToken == t) = none := by
              rw [hdb2]
              refine List.find?_eq_none.mpr ?_
              intro y hy
              obtain ⟨hymem, hykeep⟩ := List.mem_filter.mp hy
              simp only [beq_iff_eq]
              intro hc
              have : y.userId = userId := howner y hymem hc
              simp [this] at hykeep
            exact refreshTokens_none_eq hnone

/-- The store after `exUser` changed the password from `Abc123` to
`Xyz789` in `exDb1`: the hash is replaced and the session table is
empty. -/
def exDbCp : Db :=
  ⟨[⟨1, "a@x.com", "alice", argon2hash "Xyz789", false⟩], [], 2, 2⟩

/-- Witness for C5: the concrete password change from `exDb1` empties
the session table and kills `exTok`. -/
theorem c5_change_password_revokes_all_sessions_witness :
    AuthService.changePassword exDb1 1 "Abc123" "Xyz789" "Xyz789" =
      (exDbCp, .ok ()) ∧
    (∀ r ∈ exDbCp.userTokens, ¬ r.userId = 1) ∧
    AuthService.refreshTokens exCfg exDbCp exTok 1000 =
      (exDbCp, .error (.unauthorized "Invalid refresh token")) :=
  ⟨by decide,
   (c5_change_password_revokes_all_sessions exDb1 exDbCp 1 "Abc123"
      "Xyz789" "Xyz789" (by decide)).1,
   (c5_change_password_revokes_all_sessions exDb1 exDbCp 1 "Abc123"
      "Xyz789" "Xyz789" (by decide)).2 exCfg exTok 1000 (by decide)⟩

/-- C6: a register call whose email is already present fails
`CONFLICT("Email already exists")`; every register error leaves the
store unchanged (no user row created), and the only error outcomes are
the re-raised duplicate-email conflict and the generic
`BAD_REQUEST("Failed to register user")` that any other storage failure
is downgraded to. -/
theorem c6_register_duplicate_email (db : Db) (dto : RegisterDto) :
    ((∃ u ∈ db.users, u.email = dto.email) →
      AuthService.register db dto =
        (db, .error (.conflict "Email already exists"))) ∧
    (∀ db2 e, AuthService.register db dto = (db2, .error e) →
      db2 = db ∧
      (e = .conflict "Email already exists" ∨
       e = .badRequest "Failed to register user")) := by
  constructor
  · rintro ⟨u, hu, he⟩
    rcases hfind : db.users.find? (fun x => x.email == dto.email) with _ | u2
    · exfalso
      have hnone := List.find?_eq_none.mp hfind u hu
      simp only [beq_iff_eq] at hnone
      exact hnone he
    · unfold AuthService.register
      rw [hfind]
  · intro db2 e h
    unfold AuthService.register at h
    split at h
    · simp only [Prod.mk.injEq, Except.error.injEq] at h
      exact ⟨h.1.symm, Or.inl h.2.symm⟩
    · dsimp only [] at h
      split at h
      · simp at h
      · simp only [Prod.mk.injEq, Except.error.injEq] at h
        exact ⟨h.1.symm, Or.inr h.2.symm⟩

/-- Witness for C6: re-registering `exUser`'s email fails with the
conflict, and the store is unchanged. -/
theorem c6_register_duplicate_email_witness :
    AuthService.register exDb ⟨"a@x.com", "bob", "Pw1234"⟩ =
      (exDb, .error (.conflict "Email already exists")) :=
  (c6_register_duplicate_email exDb ⟨"a@x.com", "bob", "Pw1234"⟩).1
    (by decide)

/-- C9: registering a fresh email with an already-taken username slips
past the email-only pre-check, violates the store's
`User_username_key` unique index inside `create`, and is downgraded by
the catch-all to `BAD_REQUEST("Failed to register user")` — not a
CONFLICT — with no user row created. -/
theorem c9_register_username_conflict_downgraded (db : Db)
    (dto : RegisterDto)
    (hemail : ∀ u ∈ db.users, ¬ u.email = dto.email)
    (huname : ∃ u ∈ db.users, u.username = dto.username) :
    AuthService.register db dto =
      (db, .error (.badRequest "Failed to register user")) := by
  have hfind : db.users.find? (fun x => x.email == dto.email) = none := by
    refine List.find?_eq_none.mpr ?_
    intro u hu
    simpa [beq_iff_eq] using hemail u hu
  have hany1 : db.users.any (fun u => u.email == dto.email) = false := by
    refine List.any_eq_false.mpr ?_
    intro u hu
    simpa [beq_iff_eq] using hemail u hu
  obtain ⟨u, hu, hn⟩ := huname
  have hany2 : db.users.any (fun x => x.username == dto.username)
      = true :=
    List.any_eq_true.mpr ⟨u, hu, by simp [beq_iff_eq, hn]⟩
  unfold AuthService.register
  rw [hfind]
  unfold AuthService.userCreate
  simp [hany1, hany2]

/-- Witness for C9: fresh email `b@x.com` with taken username `alice`
fails with the generic bad-request error and no state change. -/
theorem c9_register_username_conflict_downgraded_witness :
    AuthService.register exDb ⟨"b@x.com", "alice", "Pw1234"⟩ =
      (exDb, .error (.badRequest "Failed to register user")) :=
  c9_register_username_conflict_downgraded exDb
    ⟨"b@x.com", "alice", "Pw1234"⟩ (by decide) (by decide)

/-- A successful `login` call decomposes into: the user found by email,
not locked, password verified, the returned data carrying the minted
pair, and the store extended by `saveRefreshToken`. -/
theorem login_ok_inv {cfg : Config} {db db2 : Db} {dto : LoginDto}
    {ua ip : String} {now : Nat} {d : LoginData}
    (h : AuthService.login cfg db dto ua ip now = (db2, .ok d)) :
    ∃ u, db.users.find? (fun x => x.email == dto.email) = some u ∧
      u.isLocked = false ∧
      argon2verify u.password dto.password = true ∧
      d = ⟨⟨u.id, u.email, u.username⟩,
           (AuthService.generateTokens cfg u.id u.username u.email now).1,
           (AuthService.generateTokens cfg u.id u.username u.email now).2⟩ ∧
      db2 = AuthService.saveRefreshToken db u.id
        (AuthService.generateTokens cfg u.id u.username u.email now).2
        ua ip now := by
  unfold AuthService.login at h
  split at h
  · simp at h
  · next u hfind =>
    rcases hlock : u.isLocked with _ | _
    · rw [hlock] at h
      simp only [Bool.false_eq_true, if_false] at h
      rcases hpw : argon2verify u.password dto.password with _ | _
      · rw [hpw] at h
        simp at h
      · rw [hpw] at h
        simp only [Bool.not_true, Bool.false_eq_true, if_false] at h
        simp only [Prod.mk.injEq, Except.ok.injEq] at h
        exact ⟨u, hfind, hlock, hpw, h.2.symm, h.1.symm⟩
    · rw [hlock] at h
      simp at h

/-- A configuration whose refresh TTL is set to one day instead of the
default seven. -/
def exCfg1d : Config := ⟨none, none, none, some (24 * 60 * 60 * 1000)⟩

/-- C7 counterexample: with the refresh TTL configured to one day, the
session row persisted by a successful login at time `0` carries
`expiresAt = sevenDaysMs`, which is NOT `now + configured refresh TTL`:
the module hardcodes the persisted expiry to seven days (only the
token's embedded expiry tracks the configuration). -/
theorem c7_counterexample :
    (AuthService.login exCfg1d exDb ⟨"a@x.com", "Abc123"⟩ "ua" "ip"
        0).1.userTokens.map (fun r => r.expiresAt) = [sevenDaysMs] ∧
    ¬ sevenDaysMs = 0 + exCfg1d.jwtRefreshExpiresIn.getD sevenDaysMs := by
  decide

/-- C7 (amended): for EVERY configured refresh TTL, the session
`expiresAt` written by a successful login and rewritten by a successful
refresh equals `now + 7 days` — the hardcoded constant, independent of
the configuration; the configured refresh TTL is consumed only by the
Token Codec, so it governs only the expiry embedded in the minted
refresh-token string itself. -/
theorem c7_session_expiry_hardcoded :
    (∀ cfg db dto ua ip now db2 d,
      AuthService.login cfg db dto ua ip now = (db2, .ok d) →
      ∃ row : UserToken, db2.userTokens = db.userTokens ++ [row] ∧
        row.expiresAt = now + sevenDaysMs ∧
        row.refreshToken.exp =
          now + cfg.jwtRefreshExpiresIn.getD sevenDaysMs) ∧
    (∀ cfg db db2 t now pr,
      AuthService.refreshTokens cfg db t now = (db2, .ok pr) →
      ∃ r, db.userTokens.find? (fun x => x.refreshToken == t) = some r ∧
        ({ r with refreshToken := pr.2, lastUsedAt := now,
                  expiresAt := now + sevenDaysMs } : UserToken)
          ∈ db2.userTokens ∧
        pr.2.exp = now + cfg.jwtRefreshExpiresIn.getD sevenDaysMs) := by
  constructor
  · intro cfg db dto ua ip now db2 d h
    obtain ⟨u, hfind, hlock, hpw, hd, hdb2⟩ := login_ok_inv h
    subst hdb2
    refine ⟨_, rfl, rfl, ?_⟩
    simp [AuthService.generateTokens, signToken]
  · intro cfg db db2 t now pr h
    obtain ⟨r, u, hfind, hexp, hver, huser, hpr, hdb2⟩ :=
      refreshTokens_ok_inv h
    subst hdb2
    refine ⟨r, hfind, ?_, ?_⟩
    · have hmem : r ∈ db.userTokens := List.mem_of_find?_eq_some hfind
      have himg : rotateUpd r.id pr.2 now r =
          { r with refreshToken := pr.2, lastUsedAt := now,
                   expiresAt := now + sevenDaysMs } := by
        simp [rotateUpd]
      exact himg ▸ List.mem_map_of_mem _ hmem
    · rw [hpr]
      simp [AuthService.generateTokens, signToken]

/-- The refresh token minted by a login at time `0` under the one-day
configuration: its embedded expiry is one day. -/
def exTok1d : Jwt :=
  signToken 1 "alice" "a@x.com" "your-refresh-secret" 0
    (24 * 60 * 60 * 1000)

/-- The store after that login: the persisted row still expires at
seven days. -/
def exDb1d : Db :=
  ⟨[exUser], [⟨1, 1, exTok1d, "ua", "ip", "ua", 0, sevenDaysMs⟩], 2, 2⟩

/-- The data returned by that login. -/
def exData1d : LoginData :=
  ⟨⟨1, "a@x.com", "alice"⟩,
   signToken 1 "alice" "a@x.com" "your-secret-jwt-key" 0 fifteenMinutesMs,
   exTok1d⟩

/-- Witness for the amended C7: under the one-day configuration
`exCfg1d`, login at time `0` persists a row expiring at `sevenDaysMs`
while the minted refresh token itself expires at one day. -/
theorem c7_session_expiry_hardcoded_witness :
    ∃ row : UserToken,
      exDb1d.userTokens = exDb.userTokens ++ [row] ∧
      row.expiresAt = 0 + sevenDaysMs ∧
      row.refreshToken.exp =
        0 + exCfg1d.jwtRefreshExpiresIn.getD sevenDaysMs :=
  c7_session_expiry_hardcoded.1 exCfg1d exDb ⟨"a@x.com", "Abc123"⟩
    "ua" "ip" 0 exDb1d exData1d (by decide)

/-- C10: `refreshTokens` never inspects the `isLocked` flag — for a
LOCKED user with a validly signed, unexpired session token, refresh
still succeeds and mints a fresh pair; the same locked user is rejected
by the access-token gate (`validate`).  Locking does not stop refresh,
only the Identity Gate. -/
theorem c10_refresh_ignores_lock (cfg : Config) (db : Db) (t : Jwt)
    (now : Nat) (r : UserToken) (u : User)
    (hfind : db.userTokens.find? (fun x => x.refreshToken == t) = some r)
    (hexp : ¬ now > r.expiresAt)
    (hver : verifyToken t (cfg.jwtRefreshSecret.getD "your-refresh-secret")
      now = true)
    (huser : db.users.find? (fun x => x.id == r.userId) = some u)
    (hlock : u.isLocked = true) :
    (AuthService.refreshTokens cfg db t now).2 =
      .ok (AuthService.generateTokens cfg u.id u.username u.email now) ∧
    JwtStrategy.validate db
        (Jwt.payload (AuthService.generateTokens cfg u.id u.username
          u.email now).1) =
      .error (.unauthorized "Account is locked") := by
  constructor
  · rw [refreshTokens_ok_eq hfind hexp hver huser]
  · have hid : u.id = r.userId := by
      have := List.find?_some huser
      simpa [beq_iff_eq] using this
    have hpay : (Jwt.payload (AuthService.generateTokens cfg u.id
        u.username u.email now).1).sub = r.userId := by
      simp [AuthService.generateTokens, signToken, Jwt.payload, hid]
    unfold JwtStrategy.validate
    rw [hpay, huser]
    simp [hlock]

/-- The store `exDb1` with its single user locked. -/
def exDbLocked : Db :=
  ⟨[⟨1, "a@x.com", "alice", argon2hash "Abc123", true⟩], [exRow], 2, 2⟩

/-- Witness for C10: in `exDbLocked` the locked user's session token
still refreshes successfully at time `1000`, while `validate` rejects
the locked account. -/
theorem c10_refresh_ignores_lock_witness :
    (AuthService.refreshTokens exCfg exDbLocked exTok 1000).2 =
      .ok (AuthService.generateTokens exCfg 1 "alice" "a@x.com" 1000) ∧
    JwtStrategy.validate exDbLocked
        (Jwt.payload (AuthService.generateTokens exCfg 1 "alice"
          "a@x.com" 1000).1) =
      .error (.unauthorized "Account is locked") :=
  c10_refresh_ignores_lock exCfg exDbLocked exTok 1000 exRow
    ⟨1, "a@x.com", "alice", argon2hash "Abc123", true⟩
    (by decide) (by decide) (by decide) (by decide) (by decide)

set_option linter.unusedVariables false in
/-- C8: after the transport layer verified an access token, `validate`
still re-looks-up the subject by `payload.sub`: an absent user is
rejected, a locked user is rejected, and on success exactly the triple
`{id, username, email}` of the freshly loaded user row is exposed — the
`CurrentUserData` projection has no password field at all.  The
verification hypothesis frames the claim (the gate runs `validate` only
on verified tokens); the re-check itself does not depend on it. -/
theorem c8_validate_regates_and_projects (db : Db) (tok : Jwt)
    (secret : String) (now : Nat)
    (hver : verifyToken tok secret now = true) :
    (db.users.find? (fun x => x.id == tok.payload.sub) = none →
      JwtStrategy.validate db tok.payload =
        .error (.unauthorized "User not found")) ∧
    (∀ u, db.users.find? (fun x => x.id == tok.payload.sub) = some u →
      u.isLocked = true →
      JwtStrategy.validate db tok.payload =
        .error (.unauthorized "Account is locked")) ∧
    (∀ u, db.users.find? (fun x => x.id == tok.payload.sub) = some u →
      u.isLocked = false →
      JwtStrategy.validate db tok.payload =
        .ok ⟨u.id, u.username, u.email⟩) := by
  refine ⟨?_, ?_, ?_⟩
  · intro hfind
    unfold JwtStrategy.validate
    rw [hfind]
  · intro u hfind hlock
    unfold JwtStrategy.validate
    rw [hfind]
    simp [hlock]
  · intro u hfind hlock
    unfold JwtStrategy.validate
    rw [hfind]
    simp [hlock]

/-- Witness for C8: a token for an id absent from the store is
rejected, and the token for `exUser` yields exactly the
`{id, username, email}` projection. -/
theorem c8_validate_regates_and_projects_witness :
    JwtStrategy.validate exDb
        (Jwt.payload (signToken 9 "ghost" "g@x.com" "your-secret-jwt-key"
          0 fifteenMinutesMs)) =
      .error (.unauthorized "User not found") ∧
    JwtStrategy.validate exDb
        (Jwt.payload (signToken 1 "alice" "a@x.com" "your-secret-jwt-key"
          0 fifteenMinutesMs)) =
      .ok ⟨1, "alice", "a@x.com"⟩ :=
  ⟨(c8_validate_regates_and_projects exDb
      (signToken 9 "ghost" "g@x.com" "your-secret-jwt-key" 0
        fifteenMinutesMs) "your-secret-jwt-key" 3 (by decide)).1
      (by decide),
   (c8_validate_regates_and_projects exDb
      (signToken 1 "alice" "a@x.com" "your-secret-jwt-key" 0
        fifteenMinutesMs) "your-secret-jwt-key" 3 (by decide)).2.2
      exUser (by decide) (by decide)⟩

end HRM
